import Mathlib

/-!
Verification of the `switch-ts` pattern-matching library.

The library (src/index.ts) offers a chainable `when(value)` expression: a
sequence of condition checks (`is`, `isValue`, `isType`, `isAny`, `isAll`)
followed by a terminal `otherwise(producer)`.  Internally it is a two-state
cursor: `chain(value)` (unmatched, still testing) and `match(result)`
(matched, absorbing).  We shallowly embed the cursor machinery, the
predicate factories, and the `exhaustive` assertion, and prove the spec's
claims about them.

JavaScript effects are embedded by explicit state passing: a caller-supplied
producer is a state transformer `σ → R × σ`, so "the producer is invoked
exactly once and no other producer is invoked" is expressed by an equation
showing the whole chain run equals a single application of the selected
producer to the initial state.
-/

namespace SwitchTs

/-- A model of JavaScript runtime values sufficient for the claims about
strict equality (`===`), `NaN`, and `Array.prototype.includes`.  Finite
numbers are modelled as integers; `nan` is the IEEE NaN, kept separate
because `===` is irreflexive at NaN. -/
inductive JSVal : Type where
  | num (n : Int)
  | nan
  | str (s : String)
  | bool (b : Bool)
  | null
  | undef

/-- JavaScript strict equality `===` on the modelled values: `NaN === x` is
false for every `x` (including `NaN` itself); values of different kinds are
never equal; no coercion and no structural deep equality. -/
def strictEq : JSVal → JSVal → Bool
  | .num a, .num b => a == b
  | .str a, .str b => a == b
  | .bool a, .bool b => a == b
  | .null, .null => true
  | .undef, .undef => true
  | _, _ => false

/-- JavaScript SameValueZero equality: like `===` except that `NaN` equals
`NaN`.  This is the comparison `Array.prototype.includes` uses (ECMAScript
`Array.prototype.includes` step "If SameValueZero(searchElement, elementK)"). -/
def sameValueZero : JSVal → JSVal → Bool
  | .nan, .nan => true
  | a, b => strictEq a b

instance : BEq JSVal := ⟨strictEq⟩

/-- The library's `eq` factory, `expected === actual`, at the modelled
JavaScript values (src/index.ts line 172). -/
def eq (expected actual : JSVal) : Bool := strictEq expected actual

/-- The library's `oneOf` factory, `values.includes(value)`
(src/index.ts line 351); `includes` compares with SameValueZero. -/
def oneOf (values : List JSVal) (value : JSVal) : Bool :=
  values.any (fun x => sameValueZero x value)

/-- The library's `noneOf` factory, `!values.includes(value)`
(src/index.ts line 371). -/
def noneOf (values : List JSVal) (value : JSVal) : Bool :=
  !(values.any (fun x => sameValueZero x value))

/-- The library's `all` combinator (src/index.ts line 459):
`predicates.every((pred) => pred(value))`. -/
def all {T : Type} (predicates : List (T → Bool)) (value : T) : Bool :=
  predicates.all (fun pred => pred value)

/-- The library's `any` combinator (src/index.ts line 479):
`predicates.some((pred) => pred(value))`. -/
def any {T : Type} (predicates : List (T → Bool)) (value : T) : Bool :=
  predicates.any (fun pred => pred value)

/-- The library's `not` combinator (src/index.ts line 498). -/
def not {T : Type} (predicate : T → Bool) (value : T) : Bool :=
  !(predicate value)

/-- The library's `then` helper (src/index.ts line 149): a constant
producer, embedded as a state transformer that leaves the state unchanged. -/
def thenConst {R σ : Type} (value : R) : σ → R × σ := fun s => (value, s)

/-- Rendering used by `exhaustive`'s error message: `JSON.stringify(value)`
interpolated into a template literal.  `JSON.stringify(NaN)` is `"null"`;
`JSON.stringify(undefined)` is `undefined`, which the template literal
renders as the text `undefined`. -/
def jsonStringify : JSVal → String
  | .num n => toString n
  | .nan => "null"
  | .str s => "\"" ++ s ++ "\""
  | .bool b => Bool.rec "false" "true" b
  | .null => "null"
  | .undef => "undefined"

/-- The library's `exhaustive` function (src/index.ts line 529):
`throw new Error(` followed by `Unhandled case: ` and `JSON.stringify(value)`.
Throwing is embedded as `Except.error` carrying the message. -/
def exhaustive (value : JSVal) : Except String Empty :=
  .error ("Unhandled case: " ++ jsonStringify value)

/-- The two-state cursor of the chain: `unmatched value` embeds the object
built by `chain(value)` (and by `when(value)`, whose condition-check methods
are defined identically); `matched result` embeds the object built by
`match(result)`. -/
inductive Cursor (T R : Type) : Type where
  | unmatched (value : T)
  | matched (result : R)

/-- Method `is` (src/index.ts lines 47 and 60).  On `match(value)`:
`() => match(value)`.  On `chain(value)`:
`(predicate, producer) => predicate(value) ? match(producer()) : chain(value)`. -/
def Cursor.is {T R σ : Type} :
    Cursor T R → (T → Bool) → (σ → R × σ) → σ → Cursor T R × σ
  | .matched r, _, _, s => (.matched r, s)
  | .unmatched v, predicate, producer, s =>
      if predicate v then
        match producer s with
        | (r, s') => (.matched r, s')
      else (.unmatched v, s)

/-- Method `isValue` (src/index.ts lines 48 and 62).  On `chain(value)`:
`value === expectedValue ? match(result) : chain(value)` — the result is a
literal, not a producer, so no caller-supplied function is invoked and the
state is untouched.  `===` is the `BEq` instance (strict equality at `JSVal`). -/
def Cursor.isValue {T R σ : Type} [BEq T] :
    Cursor T R → T → R → σ → Cursor T R × σ
  | .matched r, _, _, s => (.matched r, s)
  | .unmatched v, expectedValue, result, s =>
      if v == expectedValue then (.matched result, s) else (.unmatched v, s)

/-- Method `isType` (src/index.ts lines 49 and 65).  On `chain(value)`:
`guard(value) ? match(producer(value)) : chain(value)`; the type-narrowing
producer receives the subject value. -/
def Cursor.isType {T R σ : Type} :
    Cursor T R → (T → Bool) → (T → σ → R × σ) → σ → Cursor T R × σ
  | .matched r, _, _, s => (.matched r, s)
  | .unmatched v, guard, producer, s =>
      if guard v then
        match producer v s with
        | (r, s') => (.matched r, s')
      else (.unmatched v, s)

/-- Method `isAny` (src/index.ts lines 50 and 68).  On `chain(value)`:
`predicates.some((pred) => pred(value)) ? match(producer()) : chain(value)`. -/
def Cursor.isAny {T R σ : Type} :
    Cursor T R → List (T → Bool) → (σ → R × σ) → σ → Cursor T R × σ
  | .matched r, _, _, s => (.matched r, s)
  | .unmatched v, predicates, producer, s =>
      if predicates.any (fun pred => pred v) then
        match producer s with
        | (r, s') => (.matched r, s')
      else (.unmatched v, s)

/-- Method `isAll` (src/index.ts lines 51 and 70).  On `chain(value)`:
`predicates.every((pred) => pred(value)) ? match(producer()) : chain(value)`. -/
def Cursor.isAll {T R σ : Type} :
    Cursor T R → List (T → Bool) → (σ → R × σ) → σ → Cursor T R × σ
  | .matched r, _, _, s => (.matched r, s)
  | .unmatched v, predicates, producer, s =>
      if predicates.all (fun pred => pred v) then
        match producer s with
        | (r, s') => (.matched r, s')
      else (.unmatched v, s)

/-- Method `otherwise` (src/index.ts lines 52 and 73).  On `match(value)`:
`() => value` — the fallback is not invoked, the state is untouched.  On
`chain(value)`: `(producer) => producer()`. -/
def Cursor.otherwise {T R σ : Type} :
    Cursor T R → (σ → R × σ) → σ → R × σ
  | .matched r, _, s => (r, s)
  | .unmatched _, fallback, s => fallback s

/-- The entry point `when(value)` (src/index.ts line 115): its five
condition-check methods are textually identical to those of `chain(value)`,
so it is embedded as the unmatched cursor. -/
def when {T R : Type} (value : T) : Cursor T R := .unmatched value

/-- One reified condition-check call of a chain, pairing a condition with
the caller-supplied producer (or, for `isValue`, the literal result). -/
inductive Step (σ T R : Type) : Type where
  | is (predicate : T → Bool) (producer : σ → R × σ)
  | isValue (expectedValue : T) (result : R)
  | isType (guard : T → Bool) (producer : T → σ → R × σ)
  | isAny (predicates : List (T → Bool)) (producer : σ → R × σ)
  | isAll (predicates : List (T → Bool)) (producer : σ → R × σ)

/-- Dispatch one condition-check method call on a cursor. -/
def applyStep {σ T R : Type} [BEq T] (c : Cursor T R) :
    Step σ T R → σ → Cursor T R × σ
  | .is p f, s => c.is p f s
  | .isValue e r, s => c.isValue e r s
  | .isType g f, s => c.isType g f s
  | .isAny ps f, s => c.isAny ps f s
  | .isAll ps f, s => c.isAll ps f s

/-- Run a sequence of condition-check calls, threading the state. -/
def runSteps {σ T R : Type} [BEq T] :
    Cursor T R → List (Step σ T R) → σ → Cursor T R × σ
  | c, [], s => (c, s)
  | c, st :: rest, s =>
      match applyStep c st s with
      | (c', s') => runSteps c' rest s'

/-- A whole chain evaluation: `when(value)`, the condition-check calls in
order, then `otherwise(fallback)`. -/
def runChain {σ T R : Type} [BEq T] (value : T) (steps : List (Step σ T R))
    (fallback : σ → R × σ) (s : σ) : R × σ :=
  match runSteps (when value) steps s with
  | (c, s') => c.otherwise fallback s'

/-- Whether a step's condition holds of the subject value, read off the
source guards: `predicate(value)`, `value === expectedValue`, `guard(value)`,
`predicates.some(...)`, `predicates.every(...)`. -/
def stepHolds {σ T R : Type} [BEq T] (v : T) : Step σ T R → Bool
  | .is p _ => p v
  | .isValue e _ => v == e
  | .isType g _ => g v
  | .isAny ps _ => ps.any (fun pred => pred v)
  | .isAll ps _ => ps.all (fun pred => pred v)

/-- The producing action of a step once its condition holds: apply the
caller's producer (for `isType`, to the subject value); for `isValue`,
return the literal result with the state untouched. -/
def stepProduce {σ T R : Type} (v : T) : Step σ T R → σ → R × σ
  | .is _ f => f
  | .isValue _ r => fun s => (r, s)
  | .isType _ f => f v
  | .isAny _ f => f
  | .isAll _ f => f

/-- The current `gt` factory (src/index.ts line 212): `value > threshold`,
at the ordered operand type modelled by `Int`. -/
def gt (threshold value : Int) : Bool := decide (value > threshold)

/-- The current `lt` factory (src/index.ts line 233): `value < threshold`. -/
def lt (threshold value : Int) : Bool := decide (value < threshold)

/-- The current `ge` factory (src/index.ts line 254): `value >= threshold`. -/
def ge (threshold value : Int) : Bool := decide (value >= threshold)

/-- The current `le` factory (src/index.ts line 275): `value <= threshold`. -/
def le (threshold value : Int) : Bool := decide (value <= threshold)

namespace V1

/-- The earlier snapshot's `gt` (src/unnamed/part_000 line 36):
`(value1) => (value2) => value1 > value2`, so `gt(t)(v)` computes `t > v`. -/
def gt (value1 value2 : Int) : Bool := decide (value1 > value2)

/-- The earlier snapshot's `lt` (src/unnamed/part_000 line 37):
`gt(t)(v)` style currying, `lt(t)(v)` computes `t < v`. -/
def lt (value1 value2 : Int) : Bool := decide (value1 < value2)

/-- The earlier snapshot's `ge` (src/unnamed/part_000 line 38):
`ge(t)(v)` computes `t >= v`. -/
def ge (value1 value2 : Int) : Bool := decide (value1 >= value2)

/-- The earlier snapshot's `le` (src/unnamed/part_000 line 39):
`le(t)(v)` computes `t <= v`. -/
def le (value1 value2 : Int) : Bool := decide (value1 <= value2)

end V1

/-- A reified condition-check call whose caller-supplied producers may
throw: a JavaScript exception is embedded as `Except.error`. -/
inductive StepE (σ T R : Type) : Type where
  | is (predicate : T → Bool) (producer : σ → Except String (R × σ))
  | isValue (expectedValue : T) (result : R)
  | isType (guard : T → Bool) (producer : T → σ → Except String (R × σ))
  | isAny (predicates : List (T → Bool)) (producer : σ → Except String (R × σ))
  | isAll (predicates : List (T → Bool)) (producer : σ → Except String (R × σ))

/-- Dispatch one condition-check call when producers may throw.  The chain
machinery itself (src/index.ts `match` and `chain`) contains no `throw` and
no `try`: an error can only originate in a caller-supplied producer and
propagates unmodified. -/
def applyStepE {σ T R : Type} [BEq T] (c : Cursor T R) :
    StepE σ T R → σ → Except String (Cursor T R × σ)
  | .is p f, s =>
      match c with
      | .matched r => .ok (.matched r, s)
      | .unmatched v =>
          if p v then
            match f s with
            | .ok (r, s') => .ok (.matched r, s')
            | .error e => .error e
          else .ok (.unmatched v, s)
  | .isValue e r, s =>
      match c with
      | .matched r' => .ok (.matched r', s)
      | .unmatched v =>
          if v == e then .ok (.matched r, s) else .ok (.unmatched v, s)
  | .isType g f, s =>
      match c with
      | .matched r => .ok (.matched r, s)
      | .unmatched v =>
          if g v then
            match f v s with
            | .ok (r, s') => .ok (.matched r, s')
            | .error e => .error e
          else .ok (.unmatched v, s)
  | .isAny ps f, s =>
      match c with
      | .matched r => .ok (.matched r, s)
      | .unmatched v =>
          if ps.any (fun pred => pred v) then
            match f s with
            | .ok (r, s') => .ok (.matched r, s')
            | .error e => .error e
          else .ok (.unmatched v, s)
  | .isAll ps f, s =>
      match c with
      | .matched r => .ok (.matched r, s)
      | .unmatched v =>
          if ps.all (fun pred => pred v) then
            match f s with
            | .ok (r, s') => .ok (.matched r, s')
            | .error e => .error e
          else .ok (.unmatched v, s)

/-- Run a sequence of possibly-throwing condition-check calls. -/
def runStepsE {σ T R : Type} [BEq T] :
    Cursor T R → List (StepE σ T R) → σ → Except String (Cursor T R × σ)
  | c, [], s => .ok (c, s)
  | c, st :: rest, s =>
      match applyStepE c st s with
      | .ok (c', s') => runStepsE c' rest s'
      | .error e => .error e

/-- A whole chain evaluation with possibly-throwing producers. -/
def runChainE {σ T R : Type} [BEq T] (value : T) (steps : List (StepE σ T R))
    (fallback : σ → Except String (R × σ)) (s : σ) : Except String (R × σ) :=
  match runStepsE (when value) steps s with
  | .ok (.matched r, s') => .ok (r, s')
  | .ok (.unmatched _, s') => fallback s'
  | .error e => .error e

/-- A total caller-supplied producer, seen as one that never throws. -/
def liftProducer {σ R : Type} (f : σ → R × σ) : σ → Except String (R × σ) :=
  fun s => .ok (f s)

/-- A condition-check call whose caller-supplied functions are total. -/
def liftStep {σ T R : Type} : Step σ T R → StepE σ T R
  | .is p f => .is p (liftProducer f)
  | .isValue e r => .isValue e r
  | .isType g f => .isType g (fun v => liftProducer (f v))
  | .isAny ps f => .isAny ps (liftProducer f)
  | .isAll ps f => .isAll ps (liftProducer f)

/-- Boolean test that `needle` occurs as a prefix of `haystack`. -/
def isPre : List Char → List Char → Bool
  | [], _ => true
  | _ :: _, [] => false
  | a :: as, b :: bs => a == b && isPre as bs

/-- Boolean test that `needle` occurs as a contiguous substring of
`haystack`. -/
def hasSub (needle : List Char) : List Char → Bool
  | [] => isPre needle []
  | c :: rest => isPre needle (c :: rest) || hasSub needle rest

theorem isPre_refl (l : List Char) : isPre l l = true := by
  induction l with
  | nil => rfl
  | cons a as ih => simp [isPre, ih]

theorem hasSub_self (n : List Char) : hasSub n n = true := by
  cases n with
  | nil => rfl
  | cons c rest => simp [hasSub, isPre_refl]

theorem hasSub_append (p n : List Char) : hasSub n (p ++ n) = true := by
  induction p with
  | nil => simpa using hasSub_self n
  | cons c p ih => simp [hasSub, ih]

theorem applyStep_matched_eq {σ T R : Type} [BEq T] (r : R) (st : Step σ T R)
    (s : σ) : applyStep (Cursor.matched r) st s = (Cursor.matched r, s) := by
  cases st <;> rfl

theorem runSteps_matched_eq {σ T R : Type} [BEq T] (r : R)
    (steps : List (Step σ T R)) (s : σ) :
    runSteps (Cursor.matched r) steps s = (Cursor.matched r, s) := by
  induction steps with
  | nil => rfl
  | cons st rest ih => simp [runSteps, applyStep_matched_eq, ih]

theorem applyStep_unmatched_pos {σ T R : Type} [BEq T] (v : T) (st : Step σ T R)
    (s : σ) (h : stepHolds v st = true) :
    applyStep (Cursor.unmatched v) st s =
      (Cursor.matched (stepProduce v st s).1, (stepProduce v st s).2) := by
  cases st <;>
    simp [applyStep, Cursor.is, Cursor.isValue, Cursor.isType, Cursor.isAny,
      Cursor.isAll, stepHolds, stepProduce] at h ⊢ <;> simp_all

theorem applyStep_unmatched_neg {σ T R : Type} [BEq T] (v : T) (st : Step σ T R)
    (s : σ) (h : stepHolds v st = false) :
    applyStep (Cursor.unmatched v) st s = (Cursor.unmatched v, s) := by
  cases st <;>
    simp [applyStep, Cursor.is, Cursor.isValue, Cursor.isType, Cursor.isAny,
      Cursor.isAll, stepHolds, stepProduce] at h ⊢ <;> simp_all

theorem runSteps_unmatched_spec {σ T R : Type} [BEq T] (v : T)
    (steps : List (Step σ T R)) (s : σ) :
    runSteps (Cursor.unmatched v) steps s =
      match steps.find? (stepHolds v) with
      | some st => (Cursor.matched (stepProduce v st s).1, (stepProduce v st s).2)
      | none => (Cursor.unmatched v, s) := by
  induction steps with
  | nil => rfl
  | cons st rest ih =>
      cases h : stepHolds v st with
      | true =>
          rw [List.find?_cons_of_pos _ h]
          simp [runSteps, applyStep_unmatched_pos v st s h, runSteps_matched_eq]
      | false =>
          rw [List.find?_cons_of_neg]
          · simp [runSteps, applyStep_unmatched_neg v st s h, ih]
          · simp [h]

theorem applyStepE_lift {σ T R : Type} [BEq T] (c : Cursor T R)
    (st : Step σ T R) (s : σ) :
    applyStepE c (liftStep st) s = .ok (applyStep c st s) := by
  cases st <;> cases c <;>
    simp only [applyStepE, applyStep, liftStep, liftProducer, Cursor.is,
      Cursor.isValue, Cursor.isType, Cursor.isAny, Cursor.isAll] <;>
    split <;> rfl

theorem runStepsE_lift {σ T R : Type} [BEq T] (c : Cursor T R)
    (steps : List (Step σ T R)) (s : σ) :
    runStepsE c (steps.map liftStep) s = .ok (runSteps c steps s) := by
  induction steps generalizing c s with
  | nil => rfl
  | cons st rest ih =>
      simp only [List.map, runStepsE, runSteps, applyStepE_lift]
      cases applyStep c st s with
      | mk c' s' => exact ih c' s'

theorem runChainE_lift {σ T R : Type} [BEq T] (value : T)
    (steps : List (Step σ T R)) (fallback : σ → R × σ) (s : σ) :
    runChainE value (steps.map liftStep) (liftProducer fallback) s
      = .ok (runChain value steps fallback s) := by
  simp only [runChainE, runChain, runStepsE_lift]
  cases runSteps (when value) steps s with
  | mk c s' => cases c <;> rfl

/-- Claim C1: in every chain built with `when`, the whole evaluation equals a
single application of exactly one producing action to the initial state: the
one of the earliest condition in call order that holds of the subject value,
or the terminal fallback producer if no condition holds.  Since producers
are state transformers and the equation touches the state through exactly
one application, that producer is invoked exactly once and the producers of
all other (in particular all later) conditions are never invoked. -/
theorem runChain_first_match {σ T R : Type} [BEq T] (value : T)
    (steps : List (Step σ T R)) (fallback : σ → R × σ) (s : σ) :
    runChain value steps fallback s =
      match steps.find? (stepHolds value) with
      | some st => stepProduce value st s
      | none => fallback s := by
  simp only [runChain, when, runSteps_unmatched_spec]
  cases steps.find? (stepHolds value) with
  | some st => rfl
  | none => rfl

/-- Claim C2: every condition-check method invoked on an already matched
cursor is a pure pass-through: it returns a matched cursor carrying the same
result and leaves the state untouched (so neither the condition nor the
producer is evaluated), regardless of the condition and producer supplied. -/
theorem matched_absorbing {σ T R : Type} [BEq T] (result : R) (s : σ)
    (predicate : T → Bool) (producer : σ → R × σ) (expectedValue : T)
    (litResult : R) (guard : T → Bool) (tproducer : T → σ → R × σ)
    (predicates : List (T → Bool)) :
    (Cursor.matched result : Cursor T R).is predicate producer s
        = (Cursor.matched result, s) ∧
    (Cursor.matched result : Cursor T R).isValue expectedValue litResult s
        = (Cursor.matched result, s) ∧
    (Cursor.matched result : Cursor T R).isType guard tproducer s
        = (Cursor.matched result, s) ∧
    (Cursor.matched result : Cursor T R).isAny predicates producer s
        = (Cursor.matched result, s) ∧
    (Cursor.matched result : Cursor T R).isAll predicates producer s
        = (Cursor.matched result, s) :=
  ⟨rfl, rfl, rfl, rfl, rfl⟩

/-- Claim C3: `otherwise` on an unmatched cursor equals one application of
the fallback producer to the current state (invoked exactly once, its result
returned); on a matched cursor it returns the carried result with the state
untouched, so the fallback producer is never invoked. -/
theorem otherwise_fallback {σ T R : Type} (v : T) (r : R)
    (fallback : σ → R × σ) (s : σ) :
    (Cursor.unmatched v : Cursor T R).otherwise fallback s = fallback s ∧
    (Cursor.matched r : Cursor T R).otherwise fallback s = (r, s) :=
  ⟨rfl, rfl⟩

/-- Claim C4 counterexample: the same-named comparison factories of the two
snapshots disagree: at threshold 0 and value 1, the earlier snapshot's
`gt(0)(1)` computes `0 > 1`, which is false, while the current `gt(0)(1)`
computes `1 > 0`, which is true. -/
theorem gt_snapshot_disagreement : V1.gt 0 1 = false ∧ gt 0 1 = true := by
  constructor <;> rfl

/-- Claim C4 (amended): the earlier snapshot's comparison factories take the
threshold and the tested value in opposite roles, so each agrees with the
argument-swapped current factory — old `gt(t)(v)` equals current `lt(t)(v)`,
old `lt` equals current `gt`, old `ge` equals current `le`, and old `le`
equals current `ge` — rather than with its same-named counterpart. -/
theorem v1_comparisons_swapped (t v : Int) :
    V1.gt t v = lt t v ∧ V1.lt t v = gt t v ∧
    V1.ge t v = le t v ∧ V1.le t v = ge t v := by
  refine ⟨?_, ?_, ?_, ?_⟩ <;>
    simp [V1.gt, V1.lt, V1.ge, V1.le, gt, lt, ge, le]

/-- Claim C5: `isAll` with an empty predicate sequence always matches — the
chain becomes matched carrying the producer's result — and `all([])` is true
for every value; `isAny` with an empty predicate sequence never matches —
the cursor stays unmatched with the same subject and untouched state — and
`any([])` is false for every value. -/
theorem empty_all_any {σ T R : Type} (v : T) (producer : σ → R × σ) (s : σ) :
    (Cursor.unmatched v : Cursor T R).isAll [] producer s
        = (Cursor.matched (producer s).1, (producer s).2) ∧
    (Cursor.unmatched v : Cursor T R).isAny [] producer s
        = (Cursor.unmatched v, s) ∧
    all ([] : List (T → Bool)) v = true ∧
    any ([] : List (T → Bool)) v = false :=
  ⟨rfl, rfl, rfl, rfl⟩

/-- Claim C6: `isValue` compares with strict equality and not coercion: the
number 2 matched against the string "2" (and vice versa) does not match, and
the cursor stays unmatched carrying the original subject value. -/
theorem isValue_strict_equality {R σ : Type} (r : R) (s : σ) :
    (Cursor.unmatched (JSVal.num 2) : Cursor JSVal R).isValue (JSVal.str "2") r s
        = (Cursor.unmatched (JSVal.num 2), s) ∧
    (Cursor.unmatched (JSVal.str "2") : Cursor JSVal R).isValue (JSVal.num 2) r s
        = (Cursor.unmatched (JSVal.str "2"), s) :=
  ⟨rfl, rfl⟩

/-- Claim C7: `exhaustive`, invoked with any value, throws an error whose
message contains the `JSON.stringify` rendering of that value; and the chain
machinery itself raises nothing: with total caller-supplied producers and
fallback, a whole chain evaluation in the throw-aware semantics returns
`Except.ok` of the pure result, for every input.  (The remaining exported
operations — the predicate factories, combinators and type guards — are
embedded as total functions, mirroring the absence of any `throw` outside
`exhaustive` in the source.) -/
theorem exhaustive_sole_error :
    (∀ value : JSVal, ∃ msg : String,
        exhaustive value = Except.error msg ∧
        hasSub (jsonStringify value).data msg.data = true) ∧
    (∀ (σ T R : Type) [BEq T] (value : T) (steps : List (Step σ T R))
        (fallback : σ → R × σ) (s : σ),
        runChainE value (steps.map liftStep) (liftProducer fallback) s
          = Except.ok (runChain value steps fallback s)) := by
  constructor
  · intro value
    refine ⟨"Unhandled case: " ++ jsonStringify value, rfl, ?_⟩
    have h := hasSub_append ("Unhandled case: ".data) (jsonStringify value).data
    simpa using h
  · intro σ T R inst value steps fallback s
    exact runChainE_lift value steps fallback s

/-- Claim C8: with subject `NaN`, the check `isValue(NaN, r)` never matches,
because strict equality is false for `NaN` compared with itself: the cursor
stays unmatched with the original subject, and a chain beginning with that
check evaluates exactly as the chain without it — the final result comes
from a later matching condition or from the `otherwise` fallback. -/
theorem isValue_nan_passthrough {σ R : Type} (r : R)
    (rest : List (Step σ JSVal R)) (fallback : σ → R × σ) (s : σ) :
    (Cursor.unmatched JSVal.nan : Cursor JSVal R).isValue JSVal.nan r s
        = (Cursor.unmatched JSVal.nan, s) ∧
    runChain JSVal.nan (Step.isValue JSVal.nan r :: rest) fallback s
        = runChain JSVal.nan rest fallback s :=
  ⟨rfl, rfl⟩

/-- Claim C9: `oneOf`'s membership test differs from `eq`'s strict equality
at `NaN`: `oneOf([NaN])` applied to `NaN` is true, because array membership
uses SameValueZero, while `eq(NaN)` applied to `NaN` is false — so for the
one-element array `[NaN]` and the value `NaN`, `oneOf(values)(v)` is true
but `eq(values[0])(v)` is false. -/
theorem oneOf_eq_nan_divergence :
    oneOf [JSVal.nan] JSVal.nan = true ∧ eq JSVal.nan JSVal.nan = false :=
  ⟨rfl, rfl⟩

/-- Claim C10: for every cursor state, predicate list, producer and state,
`isAny(predicates, producer)` returns exactly what
`is(any(predicates), producer)` returns, and `isAll(predicates, producer)`
exactly what `is(all(predicates), producer)` returns. -/
theorem isAny_isAll_via_is {σ T R : Type} (c : Cursor T R)
    (predicates : List (T → Bool)) (producer : σ → R × σ) (s : σ) :
    c.isAny predicates producer s = c.is (any predicates) producer s ∧
    c.isAll predicates producer s = c.is (all predicates) producer s := by
  cases c <;> exact ⟨rfl, rfl⟩

end SwitchTs
